import Mathlib

/-!
Shallow embedding of `src/streamlit_app.py` (TravelingEast/weather-dashboard).

The program fetches weather data over HTTP and renders it. The network and
the JSON/XML parsing layer are modelled by passing the per-request outcome
(parsed payload on success, exception text on failure) as an explicit
argument to each embedded function; everything after that point is the
code translated statement by statement. Python floats that merely flow
through the program are modelled as rationals; Python `None` as
`Option.none`; a raised exception as `Except.error` carrying the
exception text.
-/

/-- A scalar JSON value as it appears in a Meteomatics sample slot or a
Python dict slot: a number, a string (the code also stores error strings
in the same slot), or null. -/
inductive PyValue where
  | num (q : Rat)
  | str (s : String)
  | null
deriving DecidableEq

/-- Truncation toward zero, the behaviour of Python `int(float)`. -/
def pyTrunc (q : Rat) : Int :=
  Int.tdiv q.num q.den

/-- Parse a nonempty all-digit character list as a natural number. -/
def parseNatDigits (cs : List Char) : Option Nat :=
  match cs with
  | [] => none
  | _ =>
    cs.foldl
      (fun acc c =>
        match acc with
        | none => none
        | some n => if c.isDigit then some (n * 10 + (c.toNat - 48)) else none)
      (some 0)

/-- Strip leading and trailing spaces, as Python `int(str)` strips
surrounding whitespace before parsing. -/
def stripSpaces (cs : List Char) : List Char :=
  ((cs.dropWhile (fun c => c = ' ')).reverse.dropWhile (fun c => c = ' ')).reverse

/-- Python `int(str)`: optional sign followed by digits; anything else
raises `ValueError`. (Underscore digit grouping is not modelled; no
claim depends on it.) -/
def pyIntOfStr (s : String) : Option Int :=
  match stripSpaces s.data with
  | '-' :: rest => (parseNatDigits rest).map (fun n => -(n : Int))
  | '+' :: rest => (parseNatDigits rest).map (fun n => (n : Int))
  | cs => (parseNatDigits cs).map (fun n => (n : Int))

/-- Python `int(value)` on a JSON scalar: truncates a number toward zero,
parses an integer literal from a string (`ValueError` otherwise), and
raises `TypeError` on null. Errors carry the exception text. -/
def pyInt (v : PyValue) : Except String Int :=
  match v with
  | PyValue.num q => Except.ok (pyTrunc q)
  | PyValue.str s =>
    match pyIntOfStr s with
    | some n => Except.ok n
    | none => Except.error ("invalid literal for int with base 10: " ++ s)
  | PyValue.null => Except.error "int argument must be a string or a number, not NoneType"

/-- The `weather_symbol_map` dict of the source, entry for entry. -/
def weather_symbol_map : List (Int × (String × String)) :=
  [ (0, ("A weather symbol could not be determined", "❓")),
    (1, ("Clear sky", "☀️")),
    (101, ("Clear sky (night)", "🌕")),
    (2, ("Light clouds", "🌤")),
    (102, ("Light clouds (night)", "🌥")),
    (3, ("Partly cloudy", "⛅")),
    (103, ("Partly cloudy (night)", "☁️")),
    (4, ("Cloudy", "☁️")),
    (104, ("Cloudy (night)", "☁️")),
    (5, ("Rain", "🌧")),
    (105, ("Rain (night)", "🌧")),
    (6, ("Rain and snow / sleet", "🌨")),
    (106, ("Rain and snow / sleet (night)", "🌨")),
    (7, ("Snow", "❄️")),
    (107, ("Snow (night)", "❄️")),
    (8, ("Rain shower", "🌦")),
    (108, ("Rain shower (night)", "🌦")),
    (9, ("Snow shower", "🌨")),
    (109, ("Snow shower (night)", "🌨")),
    (10, ("Sleet shower", "🌨")),
    (110, ("Sleet shower (night)", "🌨")),
    (11, ("Light fog", "🌫️")),
    (111, ("Light fog (night)", "🌫️")),
    (12, ("Dense fog", "🌫️")),
    (112, ("Dense fog (night)", "🌫️")),
    (13, ("Freezing rain", "🌧❄️")),
    (113, ("Freezing rain (night)", "🌧❄️")),
    (14, ("Thunderstorms", "⛈")),
    (114, ("Thunderstorms (night)", "⛈")),
    (15, ("Drizzle", "🌧")),
    (115, ("Drizzle (night)", "🌧")),
    (16, ("Sandstorm", "🌪️")),
    (116, ("Sandstorm (night)", "🌪️")) ]

/-- First-match association lookup, the behaviour of Python dict access
on a dict whose entries are listed in insertion order. -/
def symLookup (code : Int) : List (Int × (String × String)) → Option (String × String)
  | [] => none
  | (k, p) :: rest => if k = code then some p else symLookup code rest

/-- `get_weather_symbol_description` of the source:
`weather_symbol_map.get(symbol_id, ("Unknown symbol", "❓"))`. -/
def get_weather_symbol_description (symbol_id : Int) : String × String :=
  (symLookup symbol_id weather_symbol_map).getD ("Unknown symbol", "❓")

/-- An `item` element of the feed, as seen by the code: it either has no
`description` child, or has one whose text content is `some s` or Python
`None` for an empty element. -/
structure Item where
  description : Option (Option String)
deriving DecidableEq

/-- A parsed feed document: the `item` elements found by
`root.findall(".//item")`, in document order. -/
structure RssDoc where
  items : List Item
deriving DecidableEq

/-- The `for item in root.findall(".//item")` loop of
`fetch_first_description_from_rss`: return the text of the first `item`
that has a `description` child, else the literal fallback string. -/
def first_item_description : List Item → Option String
  | [] => some "No description available."
  | item :: rest =>
    match item.description with
    | some t => t
    | none => first_item_description rest

/-- `fetch_first_description_from_rss` of the source. The argument is the
outcome of the `requests.get` + `ET.fromstring` prefix of the `try`
block: a parsed document, or the text of whatever exception was raised
(transport failure, non-XML body, ...). The `except` clause turns the
exception into the string `"Error fetching data: {e}"`. The result is a
Python value: `some s` for a string, `none` for Python `None`. -/
def fetch_first_description_from_rss (fetched : Except String RssDoc) : Option String :=
  match fetched with
  | Except.error e => some ("Error fetching data: " ++ e)
  | Except.ok doc => first_item_description doc.items

/-- Outcome of one parameter request of `fetch_weather_data`: the
extracted scalar `data['data'][0]['coordinates'][0]['dates'][0]['value']`
on success, an `HTTPError` raised by `raise_for_status`, or any other
exception (transport, JSON parse, shape) with its text. -/
inductive CurrentFetch where
  | ok (value : PyValue)
  | httpError (msg : String)
  | otherError (msg : String)
deriving DecidableEq

/-- The body of the per-parameter `try`/`except` of `fetch_weather_data`:
the dict slot receives the value, or the error string built by the
matching `except` clause. -/
def entryFor (param : String) (o : CurrentFetch) : PyValue :=
  match o with
  | CurrentFetch.ok v => v
  | CurrentFetch.httpError e => PyValue.str ("Error fetching " ++ param ++ ": " ++ e)
  | CurrentFetch.otherError e => PyValue.str ("Error fetching " ++ param ++ ": " ++ e)

/-- `fetch_weather_data` of the source: the loop over the `params` dict,
unrolled in its insertion order (temperature, weather_symbol,
heavy_rain_warning, air_quality). Every branch of the loop body is
covered by an `except` clause, so the function always returns a dict
with all four keys and never raises. -/
def fetch_weather_data (t w h a : CurrentFetch) : List (String × PyValue) :=
  [ ("temperature", entryFor "temperature" t),
    ("weather_symbol", entryFor "weather_symbol" w),
    ("heavy_rain_warning", entryFor "heavy_rain_warning" h),
    ("air_quality", entryFor "air_quality" a) ]

/-- Python `dict.get(key, default)` on a dict modelled as an association
list in insertion order. -/
def dictGet (d : List (String × PyValue)) (k : String) (dflt : PyValue) : PyValue :=
  match d with
  | [] => dflt
  | (k2, v) :: rest => if k2 = k then v else dictGet rest k dflt

/-- The condition-code conversion of `main` (current-weather path):
`int(weather_data.get('weather_symbol', 0))` guarded by
`except (TypeError, ValueError): weather_symbol_id = 0`. -/
def current_weather_symbol_id (weather_data : List (String × PyValue)) : Int :=
  match pyInt (dictGet weather_data "weather_symbol" (PyValue.num 0)) with
  | Except.ok n => n
  | Except.error _ => 0

/-- One dated sample of a Meteomatics `dates` array: the dict
`{'date': ..., 'value': ...}`. -/
structure Sample where
  date : String
  value : PyValue
deriving DecidableEq

/-- Outcome of one parameter request of `fetch_5_day_forecast`: the
extracted `data['data'][0]['coordinates'][0]['dates']` list on success,
an `HTTPError`, or any other exception with its text. -/
inductive ParamFetch where
  | ok (dates : List Sample)
  | httpError (msg : String)
  | otherError (msg : String)
deriving DecidableEq

/-- `fetch_5_day_forecast` of the source: the loop over its two-entry
`params` dict, unrolled in insertion order (temperature first, then
weather_symbol). A failure of either request `return`s the error string
immediately, so a temperature failure is returned before the
weather_symbol request is even issued; only if both succeed is the
two-element `forecast_data` list returned. -/
def fetch_5_day_forecast (temperature weather_symbol : ParamFetch) :
    Except String (List (List Sample)) :=
  match temperature with
  | ParamFetch.httpError e => Except.error ("Error fetching temperature: " ++ e)
  | ParamFetch.otherError e => Except.error ("Error fetching temperature: " ++ e)
  | ParamFetch.ok d1 =>
    match weather_symbol with
    | ParamFetch.httpError e => Except.error ("Error fetching weather_symbol: " ++ e)
    | ParamFetch.otherError e => Except.error ("Error fetching weather_symbol: " ++ e)
    | ParamFetch.ok d2 => Except.ok [d1, d2]

/-- Python `list.index(x)`: index of the first element equal to `x`
(dict equality is structural equality). When `x` is absent the result is
the list length; the source only calls it on a member. -/
def indexOfFirst {α : Type} [DecidableEq α] (l : List α) (x : α) : Nat :=
  match l with
  | [] => 0
  | a :: rest => if a = x then 0 else indexOfFirst rest x + 1

/-- One emitted row of the display loop. -/
structure ForecastDay where
  date : String
  temperature : PyValue
  description : String
  icon : String
deriving DecidableEq

/-- The body of the `for day in forecast_data[0]` loop of
`display_5_day_forecast` for one `day`:
`symbol_id = int(forecast_data[1][forecast_data[0].index(day)]['value'])`,
then symbol resolution. Out-of-range indexing and a failing `int` are
uncaught exceptions, modelled as `Except.error`. -/
def forecast_row (tempSeries symSeries : List Sample) (day : Sample) :
    Except String ForecastDay :=
  match symSeries.get? (indexOfFirst tempSeries day) with
  | none => Except.error "IndexError: list index out of range"
  | some symDay =>
    match pyInt symDay.value with
    | Except.error e => Except.error e
    | Except.ok symbol_id =>
      Except.ok
        { date := day.date
          temperature := day.value
          description := (get_weather_symbol_description symbol_id).1
          icon := (get_weather_symbol_description symbol_id).2 }

/-- The display loop itself, iterating over a given list of days; an
uncaught exception in any iteration aborts the loop. -/
def display_rows (tempSeries symSeries : List Sample) :
    List Sample → Except String (List ForecastDay)
  | [] => Except.ok []
  | day :: rest =>
    match forecast_row tempSeries symSeries day with
    | Except.error e => Except.error e
    | Except.ok fd =>
      match display_rows tempSeries symSeries rest with
      | Except.error e => Except.error e
      | Except.ok fds => Except.ok (fd :: fds)

/-- The aggregation part of `display_5_day_forecast` of the source,
applied to the two fetched series: loop over the temperature series and
build one row per day. -/
def display_5_day_forecast (tempSeries symSeries : List Sample) :
    Except String (List ForecastDay) :=
  display_rows tempSeries symSeries tempSeries

/-- Modelled from the spec (section 4.4), for comparison with the code:
for each position i, take date_i and temperature_i from the temperature
series, take value_i from the symbol series at the same position i,
convert it to an integer condition code and resolve it. -/
def build_forecast_days_spec : List Sample → List Sample → Except String (List ForecastDay)
  | [], _ => Except.ok []
  | _ :: _, [] => Except.ok []
  | day :: ts, symDay :: ss =>
    match pyInt symDay.value with
    | Except.error e => Except.error e
    | Except.ok symbol_id =>
      match build_forecast_days_spec ts ss with
      | Except.error e => Except.error e
      | Except.ok fds =>
        Except.ok
          ({ date := day.date
             temperature := day.value
             description := (get_weather_symbol_description symbol_id).1
             icon := (get_weather_symbol_description symbol_id).2 } :: fds)

deriving instance DecidableEq for Except

/-- A key absent from every entry of the table is not found by lookup. -/
theorem symLookup_eq_none (c : Int) :
    ∀ (l : List (Int × (String × String))), (∀ p ∈ l, p.1 ≠ c) → symLookup c l = none := by
  intro l
  induction l with
  | nil => intro _; rfl
  | cons p rest ih =>
    intro h
    obtain ⟨k, v⟩ := p
    simp only [symLookup]
    rw [if_neg (h (k, v) (by simp))]
    exact ih (fun q hq => h q (List.mem_cons_of_mem _ hq))

/-- Items without a description child are skipped by the feed loop. -/
theorem first_item_description_skip :
    ∀ (pre rest : List Item), (∀ x ∈ pre, x.description = none) →
      first_item_description (pre ++ rest) = first_item_description rest := by
  intro pre
  induction pre with
  | nil => intro rest _; rfl
  | cons it pre2 ih =>
    intro rest hpre
    have h1 : it.description = none := hpre it (by simp)
    simp only [List.cons_append, first_item_description, h1]
    exact ih rest (fun x hx => hpre x (List.mem_cons_of_mem _ hx))

/-- When no item has a description, the loop falls through to the
fallback string. -/
theorem first_item_description_all_none :
    ∀ (l : List Item), (∀ x ∈ l, x.description = none) →
      first_item_description l = some "No description available." := by
  intro l
  induction l with
  | nil => intro _; rfl
  | cons it rest ih =>
    intro h
    have h1 : it.description = none := h it (by simp)
    simp only [first_item_description, h1]
    exact ih (fun x hx => h x (List.mem_cons_of_mem _ hx))

/-- On a duplicate-free list, the index of the first occurrence of the
k-th element is k. -/
theorem indexOfFirst_get {α : Type} [DecidableEq α] :
    ∀ (l : List α), l.Nodup → ∀ (k : Nat) (hk : k < l.length),
      indexOfFirst l (l.get ⟨k, hk⟩) = k := by
  intro l
  induction l with
  | nil => intro _ k hk; exact absurd hk (by simp)
  | cons a rest ih =>
    intro hnd k hk
    cases k with
    | zero => simp [indexOfFirst]
    | succ k =>
      have hk2 : k < rest.length := Nat.lt_of_succ_lt_succ (by simpa using hk)
      have hmem : rest.get ⟨k, hk2⟩ ∈ rest := List.get_mem rest k hk2
      have hne : ¬ a = rest.get ⟨k, hk2⟩ := by
        intro h
        exact (List.nodup_cons.mp hnd).1 (h ▸ hmem)
      show (if a = rest.get ⟨k, hk2⟩ then 0 else indexOfFirst rest (rest.get ⟨k, hk2⟩) + 1) = k + 1
      rw [if_neg hne, ih (List.nodup_cons.mp hnd).2 k hk2]

/-- The display loop and the positional specification agree on every
suffix, provided the temperature series has no duplicate entries and the
two series have the same length. -/
theorem display_rows_drop (temp sym : List Sample) (hnd : temp.Nodup)
    (hlen : temp.length = sym.length) :
    ∀ (n k : Nat), temp.length - k ≤ n →
      display_rows temp sym (temp.drop k) =
        build_forecast_days_spec (temp.drop k) (sym.drop k) := by
  intro n
  induction n with
  | zero =>
    intro k hk
    rw [List.drop_eq_nil_of_le (by omega), List.drop_eq_nil_of_le (by omega)]
    rfl
  | succ n ih =>
    intro k hk
    by_cases hkl : k < temp.length
    · have hks : k < sym.length := hlen ▸ hkl
      have hdt : temp.drop k = temp.get ⟨k, hkl⟩ :: temp.drop (k + 1) :=
        List.drop_eq_getElem_cons hkl
      have hds : sym.drop k = sym.get ⟨k, hks⟩ :: sym.drop (k + 1) :=
        List.drop_eq_getElem_cons hks
      rw [hdt, hds]
      have hidx : indexOfFirst temp (temp.get ⟨k, hkl⟩) = k :=
        indexOfFirst_get temp hnd k hkl
      have hget : sym.get? k = some (sym.get ⟨k, hks⟩) := List.get?_eq_get hks
      have hrow : forecast_row temp sym (temp.get ⟨k, hkl⟩) =
          match pyInt ((sym.get ⟨k, hks⟩).value) with
          | Except.error e => Except.error e
          | Except.ok symbol_id =>
            Except.ok
              { date := (temp.get ⟨k, hkl⟩).date
                temperature := (temp.get ⟨k, hkl⟩).value
                description := (get_weather_symbol_description symbol_id).1
                icon := (get_weather_symbol_description symbol_id).2 } := by
        unfold forecast_row
        rw [hidx, hget]
      simp only [display_rows, build_forecast_days_spec]
      rw [hrow, ih (k + 1) (by omega)]
      cases pyInt ((sym.get ⟨k, hks⟩).value) with
      | error e => rfl
      | ok code =>
        cases build_forecast_days_spec (temp.drop (k + 1)) (sym.drop (k + 1)) with
        | error e => rfl
        | ok fds => rfl
    · rw [List.drop_eq_nil_of_le (by omega), List.drop_eq_nil_of_le (by omega)]
      rfl

/-- C1 (amended): the Forecast Aggregator joins the two series through
`forecast_data[0].index(day)`, the index of the FIRST temperature entry
equal to the current one; this coincides with the positional join
whenever the temperature entries are pairwise distinct (and the series
have equal length), and on the example series it produces the two
expected ForecastDay rows. -/
theorem C1_forecast_positional_join :
    (∀ (temp sym : List Sample), temp.Nodup → temp.length = sym.length →
        display_5_day_forecast temp sym = build_forecast_days_spec temp sym) ∧
    display_5_day_forecast
        [⟨"d1", PyValue.num 70⟩, ⟨"d2", PyValue.num 75⟩]
        [⟨"d1", PyValue.str "1"⟩, ⟨"d2", PyValue.str "5"⟩]
      = Except.ok
        [⟨"d1", PyValue.num 70, "Clear sky", "☀️"⟩,
         ⟨"d2", PyValue.num 75, "Rain", "🌧"⟩] := by
  constructor
  · intro temp sym hnd hlen
    have h := display_rows_drop temp sym hnd hlen temp.length 0 (by omega)
    simpa [display_5_day_forecast] using h
  · decide

/-- C1 witness: the amended general statement applied to the concrete
example series of the claim. -/
theorem C1_forecast_positional_join_witness :
    display_5_day_forecast
        [⟨"d1", PyValue.num 70⟩, ⟨"d2", PyValue.num 75⟩]
        [⟨"d1", PyValue.str "1"⟩, ⟨"d2", PyValue.str "5"⟩]
      = build_forecast_days_spec
        [⟨"d1", PyValue.num 70⟩, ⟨"d2", PyValue.num 75⟩]
        [⟨"d1", PyValue.str "1"⟩, ⟨"d2", PyValue.str "5"⟩] :=
  C1_forecast_positional_join.1
    [⟨"d1", PyValue.num 70⟩, ⟨"d2", PyValue.num 75⟩]
    [⟨"d1", PyValue.str "1"⟩, ⟨"d2", PyValue.str "5"⟩]
    (by decide) (by decide)

/-- C1 counterexample: two equally long, date-aligned series whose
temperature entries repeat. The claimed positional join would resolve
position 1 from symbol value "5" (Rain), but the code resolves it from
the symbol at the first occurrence index 0, value "1" (Clear sky). -/
theorem C1_forecast_positional_join_counterexample :
    display_5_day_forecast
        [⟨"d1", PyValue.num 70⟩, ⟨"d1", PyValue.num 70⟩]
        [⟨"d1", PyValue.str "1"⟩, ⟨"d1", PyValue.str "5"⟩]
      = Except.ok
        [⟨"d1", PyValue.num 70, "Clear sky", "☀️"⟩,
         ⟨"d1", PyValue.num 70, "Clear sky", "☀️"⟩] ∧
    build_forecast_days_spec
        [⟨"d1", PyValue.num 70⟩, ⟨"d1", PyValue.num 70⟩]
        [⟨"d1", PyValue.str "1"⟩, ⟨"d1", PyValue.str "5"⟩]
      = Except.ok
        [⟨"d1", PyValue.num 70, "Clear sky", "☀️"⟩,
         ⟨"d1", PyValue.num 70, "Rain", "🌧"⟩] ∧
    display_5_day_forecast
        [⟨"d1", PyValue.num 70⟩, ⟨"d1", PyValue.num 70⟩]
        [⟨"d1", PyValue.str "1"⟩, ⟨"d1", PyValue.str "5"⟩]
      ≠ build_forecast_days_spec
        [⟨"d1", PyValue.num 70⟩, ⟨"d1", PyValue.num 70⟩]
        [⟨"d1", PyValue.str "1"⟩, ⟨"d1", PyValue.str "5"⟩] := by
  exact ⟨by decide, by decide, by decide⟩

/-- C2: a failure of either forecast parameter (HTTPError from a
non-success status, or any other exception) makes the whole
`fetch_5_day_forecast` call return the single error text for that
parameter; in particular a temperature failure short-circuits before the
symbol request, whatever its outcome would have been. -/
theorem C2_forecast_fail_fast (t s : ParamFetch) (e : String) :
    ((t = ParamFetch.httpError e ∨ t = ParamFetch.otherError e) →
      fetch_5_day_forecast t s =
        Except.error ("Error fetching temperature: " ++ e)) ∧
    (∀ d1, (s = ParamFetch.httpError e ∨ s = ParamFetch.otherError e) →
      fetch_5_day_forecast (ParamFetch.ok d1) s =
        Except.error ("Error fetching weather_symbol: " ++ e)) := by
  constructor
  · rintro (rfl | rfl) <;> rfl
  · rintro d1 (rfl | rfl) <;> rfl

/-- C2 witness: temperature fails with HTTP 500 while the symbol request
would succeed; the call returns one error text, not a partial result. -/
theorem C2_forecast_fail_fast_witness :
    fetch_5_day_forecast (ParamFetch.httpError "500 Server Error")
        (ParamFetch.ok [⟨"d1", PyValue.str "1"⟩])
      = Except.error ("Error fetching temperature: " ++ "500 Server Error") :=
  (C2_forecast_fail_fast (ParamFetch.httpError "500 Server Error")
    (ParamFetch.ok [⟨"d1", PyValue.str "1"⟩]) "500 Server Error").1 (Or.inl rfl)

/-- C3: `fetch_weather_data` always returns a dict with exactly the four
parameter keys in order; each entry is determined by that parameter's
own outcome alone (failures do not affect the other entries); a failed
parameter's entry is the error-description string; and on the spec
example (temperature succeeds with 72.5, weather_symbol gets HTTP 500)
the dict holds the numeric value for the first and the error text for
the second. The return type itself records that no exception escapes:
every branch of the loop body is covered by an except clause. -/
theorem C3_current_per_parameter_errors (t w h a : CurrentFetch) :
    (fetch_weather_data t w h a).map Prod.fst =
      ["temperature", "weather_symbol", "heavy_rain_warning", "air_quality"] ∧
    (∀ dflt, dictGet (fetch_weather_data t w h a) "temperature" dflt
      = entryFor "temperature" t) ∧
    (∀ dflt, dictGet (fetch_weather_data t w h a) "weather_symbol" dflt
      = entryFor "weather_symbol" w) ∧
    (∀ dflt, dictGet (fetch_weather_data t w h a) "heavy_rain_warning" dflt
      = entryFor "heavy_rain_warning" h) ∧
    (∀ dflt, dictGet (fetch_weather_data t w h a) "air_quality" dflt
      = entryFor "air_quality" a) ∧
    (∀ p e, entryFor p (CurrentFetch.httpError e)
        = PyValue.str ("Error fetching " ++ p ++ ": " ++ e) ∧
      entryFor p (CurrentFetch.otherError e)
        = PyValue.str ("Error fetching " ++ p ++ ": " ++ e)) ∧
    dictGet (fetch_weather_data (CurrentFetch.ok (PyValue.num (145 / 2)))
        (CurrentFetch.httpError "500 Server Error") h a) "temperature" PyValue.null
      = PyValue.num (145 / 2) ∧
    dictGet (fetch_weather_data (CurrentFetch.ok (PyValue.num (145 / 2)))
        (CurrentFetch.httpError "500 Server Error") h a) "weather_symbol" PyValue.null
      = PyValue.str "Error fetching weather_symbol: 500 Server Error" :=
  ⟨rfl, fun _ => rfl, fun _ => rfl, fun _ => rfl, fun _ => rfl,
    fun _ _ => ⟨rfl, rfl⟩, rfl, rfl⟩

/-- C4: the Symbol Resolver is a total function returning the registered
pair for every code in the table, the documented pairs for 0 and 105,
and the fallback pair for every integer not in the table. -/
theorem C4_symbol_resolver_total :
    (∀ p ∈ weather_symbol_map, get_weather_symbol_description p.1 = p.2) ∧
    get_weather_symbol_description 0
      = ("A weather symbol could not be determined", "❓") ∧
    get_weather_symbol_description 105 = ("Rain (night)", "🌧") ∧
    (∀ c : Int, (∀ p ∈ weather_symbol_map, p.1 ≠ c) →
      get_weather_symbol_description c = ("Unknown symbol", "❓")) := by
  refine ⟨by decide, rfl, rfl, ?_⟩
  intro c hc
  unfold get_weather_symbol_description
  rw [symLookup_eq_none c weather_symbol_map hc]
  rfl

/-- C4 witness: 999 is not registered, so the resolver returns the
fallback pair there. -/
theorem C4_symbol_resolver_total_witness :
    get_weather_symbol_description 999 = ("Unknown symbol", "❓") :=
  C4_symbol_resolver_total.2.2.2 999 (by decide)

/-- C5: for a successfully fetched well-formed document, the Feed Reader
returns the text content of the first `description` child found in
document order among the `item` elements (in particular, on a document
whose first item has no description and whose second carries "Tropical
storm forming", it returns that text), and when no item has a
description it returns the literal "No description available." as a
normal value. -/
theorem C5_feed_first_description
    (pre post : List Item) (it : Item) (t : Option String)
    (hpre : ∀ x ∈ pre, x.description = none)
    (hit : it.description = some t) :
    fetch_first_description_from_rss (Except.ok ⟨pre ++ it :: post⟩) = t ∧
    (∀ (doc : RssDoc), (∀ x ∈ doc.items, x.description = none) →
      fetch_first_description_from_rss (Except.ok doc)
        = some "No description available.") ∧
    fetch_first_description_from_rss
        (Except.ok ⟨[⟨none⟩, ⟨some (some "Tropical storm forming")⟩]⟩)
      = some "Tropical storm forming" := by
  refine ⟨?_, ?_, rfl⟩
  · show first_item_description (pre ++ it :: post) = t
    rw [first_item_description_skip pre (it :: post) hpre]
    simp [first_item_description, hit]
  · intro doc hdoc
    exact first_item_description_all_none doc.items hdoc

/-- C5 witness: the two-item example document of the claim. -/
theorem C5_feed_first_description_witness :
    fetch_first_description_from_rss
        (Except.ok ⟨[⟨none⟩] ++ (⟨some (some "Tropical storm forming")⟩ : Item) :: []⟩)
      = some "Tropical storm forming" :=
  (C5_feed_first_description [⟨none⟩] [] ⟨some (some "Tropical storm forming")⟩
    (some "Tropical storm forming") (by decide) rfl).1

/-- C6: when the HTTP request, the XML parse, or anything else in the
`try` block raises, the Feed Reader returns the string
"Error fetching data: {details}" as a value (the result type of the
embedding has no exception channel), and that string always begins with
"Error fetching data:". -/
theorem C6_feed_errors_as_values (e : String) :
    fetch_first_description_from_rss (Except.error e)
      = some ("Error fetching data: " ++ e) ∧
    (∃ rest, "Error fetching data: " ++ e = "Error fetching data:" ++ rest) := by
  refine ⟨rfl, ⟨" " ++ e, ?_⟩⟩
  have h : ("Error fetching data: " : String) = "Error fetching data:" ++ " " := by decide
  rw [h, String.append_assoc]

/-- C7 (amended): the fallback to code 0 for an unconvertible
condition-code value exists only on the current-weather path, where
`int(...)` is wrapped in try/except; the forecast path applies `int`
bare, so an unconvertible value there propagates the conversion error
instead of yielding code 0. -/
theorem C7_unconvertible_code_fallback :
    (∀ (wd : List (String × PyValue)) (m : String),
        pyInt (dictGet wd "weather_symbol" (PyValue.num 0)) = Except.error m →
        current_weather_symbol_id wd = 0) ∧
    (∀ (tempDay symDay : Sample) (m : String),
        pyInt symDay.value = Except.error m →
        display_5_day_forecast [tempDay] [symDay] = Except.error m) := by
  constructor
  · intro wd m h
    unfold current_weather_symbol_id
    rw [h]
  · intro tempDay symDay m h
    show display_rows [tempDay] [symDay] [tempDay] = Except.error m
    have hrow : forecast_row [tempDay] [symDay] tempDay = Except.error m := by
      unfold forecast_row
      have hidx : indexOfFirst [tempDay] tempDay = 0 := by simp [indexOfFirst]
      rw [hidx]
      show (match pyInt symDay.value with
        | Except.error e => Except.error e
        | Except.ok symbol_id =>
          Except.ok (ForecastDay.mk tempDay.date tempDay.value
            (get_weather_symbol_description symbol_id).1
            (get_weather_symbol_description symbol_id).2)) = Except.error m
      rw [h]
    simp only [display_rows]
    rw [hrow]

/-- C7 witness: an unconvertible error string in the weather_symbol slot
of the current-weather dict falls back to code 0. -/
theorem C7_unconvertible_code_fallback_witness :
    current_weather_symbol_id [("weather_symbol", PyValue.str "abc")] = 0 :=
  C7_unconvertible_code_fallback.1 [("weather_symbol", PyValue.str "abc")]
    ("invalid literal for int with base 10: " ++ "abc") (by decide)

/-- C7 counterexample: on the forecast path an unconvertible symbol value
("abc") makes the loop propagate the conversion error; it does not fall
back to code 0, which would have produced the resolved code-0 row. -/
theorem C7_unconvertible_code_fallback_counterexample :
    display_5_day_forecast [⟨"d1", PyValue.num 70⟩] [⟨"d1", PyValue.str "abc"⟩]
      = Except.error ("invalid literal for int with base 10: " ++ "abc") ∧
    display_5_day_forecast [⟨"d1", PyValue.num 70⟩] [⟨"d1", PyValue.str "abc"⟩]
      ≠ Except.ok [⟨"d1", PyValue.num 70,
          "A weather symbol could not be determined", "❓"⟩] := by
  exact ⟨by decide, by decide⟩

/-- C8: every fetch function of the embedding is a function of its
explicit inputs alone (the upstream responses); two invocations with
identical inputs and identical upstream responses return identical
outputs. The embedding threads all state explicitly because the source
functions read only immutable module constants besides their arguments
and responses. -/
theorem C8_fetch_determinism
    (u1 u2 : Except String RssDoc) (t1 t2 s1 s2 : ParamFetch)
    (c1 c2 c3 c4 d1 d2 d3 d4 : CurrentFetch)
    (hu : u1 = u2) (ht : t1 = t2) (hs : s1 = s2)
    (h1 : c1 = d1) (h2 : c2 = d2) (h3 : c3 = d3) (h4 : c4 = d4) :
    fetch_first_description_from_rss u1 = fetch_first_description_from_rss u2 ∧
    fetch_5_day_forecast t1 s1 = fetch_5_day_forecast t2 s2 ∧
    fetch_weather_data c1 c2 c3 c4 = fetch_weather_data d1 d2 d3 d4 := by
  subst hu ht hs h1 h2 h3 h4
  exact ⟨rfl, rfl, rfl⟩

/-- C8 witness: concrete repeated invocations with equal mocked
responses agree. -/
theorem C8_fetch_determinism_witness :
    fetch_first_description_from_rss (Except.error "down")
      = fetch_first_description_from_rss (Except.error "down") ∧
    fetch_5_day_forecast (ParamFetch.ok []) (ParamFetch.ok [])
      = fetch_5_day_forecast (ParamFetch.ok []) (ParamFetch.ok []) ∧
    fetch_weather_data (CurrentFetch.ok PyValue.null) (CurrentFetch.httpError "500")
        (CurrentFetch.ok PyValue.null) (CurrentFetch.otherError "timeout")
      = fetch_weather_data (CurrentFetch.ok PyValue.null) (CurrentFetch.httpError "500")
        (CurrentFetch.ok PyValue.null) (CurrentFetch.otherError "timeout") :=
  C8_fetch_determinism _ _ _ _ _ _ _ _ _ _ _ _ _ _ rfl rfl rfl rfl rfl rfl rfl

/-- C9: when the first item bearing a description child has an empty one
(text content is Python None), the Feed Reader returns None, not the
"No description available." fallback. -/
theorem C9_empty_description_returns_none
    (pre post : List Item) (it : Item)
    (hpre : ∀ x ∈ pre, x.description = none)
    (hit : it.description = some none) :
    fetch_first_description_from_rss (Except.ok ⟨pre ++ it :: post⟩) = none ∧
    fetch_first_description_from_rss (Except.ok ⟨pre ++ it :: post⟩)
      ≠ some "No description available." := by
  have h : fetch_first_description_from_rss (Except.ok ⟨pre ++ it :: post⟩) = none := by
    show first_item_description (pre ++ it :: post) = none
    rw [first_item_description_skip pre (it :: post) hpre]
    simp [first_item_description, hit]
  refine ⟨h, ?_⟩
  rw [h]
  exact fun hcon => Option.noConfusion hcon

/-- C9 witness: a single item with an empty description element. -/
theorem C9_empty_description_returns_none_witness :
    fetch_first_description_from_rss
        (Except.ok ⟨[] ++ (⟨some none⟩ : Item) :: []⟩) = none :=
  (C9_empty_description_returns_none [] [] ⟨some none⟩ (by decide) rfl).1

/-- C10: when both forecast requests succeed with well-shaped envelopes,
the result is `ok` of exactly two series, index 0 being the temperature
series and index 1 the weather_symbol series, matching the dict
insertion order the display layer indexes into. -/
theorem C10_forecast_series_order (d1 d2 : List Sample) :
    fetch_5_day_forecast (ParamFetch.ok d1) (ParamFetch.ok d2) = Except.ok [d1, d2] ∧
    ([d1, d2].length = 2 ∧
      [d1, d2].get ⟨0, by simp⟩ = d1 ∧ [d1, d2].get ⟨1, by simp⟩ = d2) :=
  ⟨rfl, rfl, rfl, rfl⟩
